import Mathlib

/-!
Shallow embedding of the drake-tutorials example programs.

Each C++ source file is a straight-line `main` that calls into the external
Drake / graphviz / matplotlib libraries.  We embed every `main` as a Lean
function producing the finite list of external calls it makes (an event
trace) together with its process exit code.  Library return values that the
programs consume (solver results, fopen outcomes) are inputs of the embedded
`main`s, so the theorems quantify over every possible library behaviour.

Symbolic expressions handed to the MathematicalProgram API are embedded as a
little expression language over decision-variable indices, with a real-number
semantics used to settle the mathematical claims about the optimization
problems the programs build.
-/

/-- Symbolic scalar expressions over decision variables, as built by the
example programs (variables, numeric literals, +, -, unary -, *, pow). -/
inductive Expr where
  | var (i : Nat)
  | lit (q : ℚ)
  | add (a b : Expr)
  | sub (a b : Expr)
  | neg (a : Expr)
  | mul (a b : Expr)
  | powE (a : Expr) (n : Nat)
deriving DecidableEq

/-- Constraint formulas handed to MathematicalProgram::AddConstraint: an
equality or a one-sided inequality between two symbolic expressions. -/
inductive Formula where
  | eqF (a b : Expr)
  | leF (a b : Expr)
  | geF (a b : Expr)
deriving DecidableEq

/-- Real-number value of a symbolic expression under an assignment of the
decision variables. -/
def Expr.evalR (asgn : Nat → ℝ) : Expr → ℝ
  | .var i => asgn i
  | .lit q => (q : ℝ)
  | .add a b => a.evalR asgn + b.evalR asgn
  | .sub a b => a.evalR asgn - b.evalR asgn
  | .neg a => -(a.evalR asgn)
  | .mul a b => a.evalR asgn * b.evalR asgn
  | .powE a n => (a.evalR asgn) ^ n

/-- Truth of a constraint formula under an assignment. -/
def Formula.holdsR (asgn : Nat → ℝ) : Formula → Prop
  | .eqF a b => a.evalR asgn = b.evalR asgn
  | .leF a b => a.evalR asgn ≤ b.evalR asgn
  | .geF a b => a.evalR asgn ≥ b.evalR asgn

/-- All decision-variable indices occurring in an expression are below n. -/
def Expr.varsBelow (n : Nat) : Expr → Bool
  | .var i => i < n
  | .lit _ => true
  | .add a b => a.varsBelow n && b.varsBelow n
  | .sub a b => a.varsBelow n && b.varsBelow n
  | .neg a => a.varsBelow n
  | .mul a b => a.varsBelow n && b.varsBelow n
  | .powE a _ => a.varsBelow n

/-- All decision-variable indices occurring in a formula are below n. -/
def Formula.varsBelow (n : Nat) : Formula → Bool
  | .eqF a b => a.varsBelow n && b.varsBelow n
  | .leF a b => a.varsBelow n && b.varsBelow n
  | .geF a b => a.varsBelow n && b.varsBelow n

/-- A field of the MathematicalProgramResult object returned by the external
solver, as consumed by the example programs. -/
inductive RField where
  | isSuccessF (b : Bool)
  | solutionF (v : List ℚ)
  | solutionResultF (s : String)
  | optimalCostF (c : ℚ)
  | solverNameF (s : String)
  | ipoptStatusF (n : Int) (meaning : String)
deriving DecidableEq

/-- The MathematicalProgramResult object the external solver returns.  Its
contents are entirely up to the library; the embedded programs are functions
of it.  Numeric fields are modelled as rationals (the programs only print
them, never compute with them). -/
structure SolveResult where
  isSuccess : Bool
  solution : List ℚ
  solutionResult : String
  optimalCost : ℚ
  solverName : String
  ipoptStatus : Int
  ipoptStatusMeaning : String

/-- An arbitrary concrete result object, used to instantiate theorems. -/
def defaultResult : SolveResult :=
  ⟨false, [], "kInfeasibleConstraints", 0, "SNOPT", 0, "Solve_Succeeded"⟩

/-- Outcomes of the fallible libc/graphviz operations performed by
createPNGFromDotFile, and the int gvFreeContext returns; all of them are
decided by the environment, none by repository code. -/
structure FileEnv where
  readOpenOK : Bool
  agreadOK : Bool
  writeOpenOK : Bool
  freeContextResult : Bool

/-- One external call (or console print) made by a repository `main`.  The
vocabulary covers every call the nine example programs make, plus the two
behaviours the spec rules out for repository code (spawning a thread,
blocking indefinitely), so their absence is a checkable property of each
trace. -/
inductive Event where
  | printStr (s : String)
  | printVars (ids : List Nat)
  | printExpr (e : Expr)
  | printFormula (f : Formula)
  | printResultField (label : String) (f : RField)
  | printVec (v : List ℚ)
  | spawnThread
  | blockIndefinitely
  | newContinuousVariables (ids : List Nat) (nm : String)
  | addConstraintCall (f : Formula)
  | addCostCall (e : Expr)
  | addVisualizationCallbackCall (ids : List Nat)
  | solveCall (solver : String) (guess : Option (List ℚ))
  | getSolutionCall (ids : List Nat)
  | addSystemCall (nm : String) (params : List ℚ)
  | addSymbolicVectorSystemCall (state : List Nat) (dynamics : Expr) (outputE : Expr)
  | connectCall (src dst : String)
  | exportInputCall (port : String)
  | logVectorOutputCall (src : String)
  | setNameCall (nm : String)
  | buildDiagramCall
  | writeFileCall (fname : String)
  | createContextCall
  | setContinuousStateCall (vals : List ℚ)
  | setPendulumStateCall
  | fixInputPortCall (port : Nat)
  | createSimulatorCall
  | simInitCall
  | advanceToCall (t : ℚ)
  | findLogCall
  | figureCall
  | plotCall (style : String)
  | xlabelCall (s : String)
  | ylabelCall (s : String)
  | showCall
  | gvContextCall
  | fopenCall (fname mode : String) (ok : Bool)
  | agreadCall (fp : Option String)
  | gvLayoutCall (engine : String) (g : Option String)
  | gvRenderCall (fmt : String) (fp : Option String)
  | gvFreeLayoutCall
  | agcloseCall
  | gvFreeContextCall
  | printUsage (progName : Option String)
  | makeMeshcatCall (port : Nat)
  | meshcatDeleteCall
  | deleteAddedControlsCall
  | addPlantSceneGraphCall (timeStep : ℚ)
  | addModelFromFileCall (filename : Option String)
  | plantFinalizeCall
  | addMeshcatVisualizerCall (role pfx : String)
  | setPropertyCall (path prop : String) (value : Bool)
  | addJointSlidersCall
  | slidersRunCall

/-- True unless the event is a thread spawn or an indefinite block — the two
behaviours the spec says never originate in repository code. -/
def Event.nonBlocking : Event → Bool
  | .spawnThread => false
  | .blockIndefinitely => false
  | _ => true

/-- True exactly on prints of a solver-result field. -/
def Event.isResultPrint : Event → Bool
  | .printResultField _ _ => true
  | _ => false

/-- True exactly on the usage-message print of meshcat_sdf. -/
def Event.isUsage : Event → Bool
  | .printUsage _ => true
  | _ => false

/-- The solver-result fields a trace prints, in order, exactly as carried by
the print events. -/
def resultPrints (tr : List Event) : List RField :=
  tr.filterMap fun e =>
    match e with
    | .printResultField _ f => some f
    | _ => none

/-- mathematical_program/basics.cpp, main: declares 2 + 2 + 3×2 continuous
variables (named x, dog, A) and prints them and two symbolic expressions;
no constraint, cost or solver.  Returns 0. -/
def basicsMain : List Event × Int :=
  ([.newContinuousVariables [0, 1] "x",
    .printVars [0, 1],
    .printExpr (.add (.add (.add (.lit 1) (.mul (.lit 2) (.var 0)))
        (.mul (.lit 3) (.var 1))) (.mul (.lit 4) (.var 1))),
    .newContinuousVariables [2, 3] "dog",
    .printVars [2, 3],
    .printExpr (.add (.add (.var 2) (.var 2))
        (.mul (.mul (.var 3) (.var 3)) (.var 3))),
    .newContinuousVariables [4, 5, 6, 7, 8, 9] "A",
    .printVars [4, 5, 6, 7, 8, 9]],
   0)

/-- mathematical_program/add_callback.cpp, update: the visualization callback
registered with the program; prints the current decision-variable vector. -/
def update (x : List ℚ) : List Event :=
  [.printVec x]

/-- mathematical_program/add_callback.cpp, main: two variables, constraint
x0*x1 == 9, cost x0^2 + x1^2, a visualization callback, then Solve with
initial guess (4,5).  The returned result is discarded; returns 0. -/
def addCallbackMain : List Event × Int :=
  ([.newContinuousVariables [0, 1] "x",
    .addConstraintCall (.eqF (.mul (.var 0) (.var 1)) (.lit 9)),
    .addCostCall (.add (.powE (.var 0) 2) (.powE (.var 1) 2)),
    .addVisualizationCallbackCall [0, 1],
    .solveCall "Solve" (some [4, 5])],
   0)

/-- mathematical_program/good_or_bad_initial_guess.cpp, main: constraint
x0^2 + x1^2 == 100, cost x0^2 - x1^2, solved twice by IpoptSolver (first with
no initial guess, then with guess (-5,0)); each result has its is_success and
solution printed.  Returns 0. -/
def goodOrBadMain (r₁ r₂ : SolveResult) : List Event × Int :=
  ([.newContinuousVariables [0, 1] "x",
    .addConstraintCall (.eqF (.add (.powE (.var 0) 2) (.powE (.var 1) 2)) (.lit 100)),
    .addCostCall (.sub (.powE (.var 0) 2) (.powE (.var 1) 2)),
    .solveCall "IpoptSolver" none,
    .printResultField "Without a good initial guess, success? " (.isSuccessF r₁.isSuccess),
    .getSolutionCall [0, 1],
    .printResultField "Solution:" (.solutionF r₁.solution),
    .solveCall "IpoptSolver" (some [-5, 0]),
    .printResultField "With a good initial guess, success? " (.isSuccessF r₂.isSuccess),
    .getSolutionCall [0, 1],
    .printResultField "Solution:" (.solutionF r₂.solution)],
   0)

/-- mathematical_program/manually_choosing_a_solver.cpp, main: min x0 subject
to x0 + x1 = 1, 0 <= x1, x1 <= 1, solved by IpoptSolver with initial guess
(1,1); prints the solution result, the solution, the solver name and the
Ipopt status with its library-provided meaning.  Returns 0. -/
def manuallyMain (r : SolveResult) : List Event × Int :=
  ([.newContinuousVariables [0, 1] "x",
    .printVars [0, 1],
    .addConstraintCall (.eqF (.add (.var 0) (.var 1)) (.lit 1)),
    .printFormula (.eqF (.add (.var 0) (.var 1)) (.lit 1)),
    .addConstraintCall (.leF (.lit 0) (.var 1)),
    .printFormula (.leF (.lit 0) (.var 1)),
    .addConstraintCall (.leF (.var 1) (.lit 1)),
    .printFormula (.leF (.var 1) (.lit 1)),
    .addCostCall (.var 0),
    .printExpr (.var 0),
    .solveCall "IpoptSolver" (some [1, 1]),
    .printResultField "" (.solutionResultF r.solutionResult),
    .getSolutionCall [0, 1],
    .printResultField "x* = " (.solutionF r.solution),
    .printResultField "Solver is " (.solverNameF r.solverName),
    .printResultField "Ipopt solver status: " (.ipoptStatusF r.ipoptStatus r.ipoptStatusMeaning)],
   0)

/-- mathematical_program/simple_optimization_problem_feasible.cpp, main:
min x0^2 + x1^2 subject to x0 + x1 = 1 and x0 <= x1, solved by Solve();
prints is_success, the solution, the optimal cost and the solver name.
Returns 0. -/
def feasibleMain (r : SolveResult) : List Event × Int :=
  ([.newContinuousVariables [0, 1] "x",
    .printVars [0, 1],
    .addConstraintCall (.eqF (.add (.var 0) (.var 1)) (.lit 1)),
    .printFormula (.eqF (.add (.var 0) (.var 1)) (.lit 1)),
    .addConstraintCall (.leF (.var 0) (.var 1)),
    .printFormula (.leF (.var 0) (.var 1)),
    .addCostCall (.add (.powE (.var 0) 2) (.powE (.var 1) 2)),
    .printExpr (.add (.powE (.var 0) 2) (.powE (.var 1) 2)),
    .solveCall "Solve" none,
    .printResultField "Success: " (.isSuccessF r.isSuccess),
    .getSolutionCall [0, 1],
    .printResultField "x* = " (.solutionF r.solution),
    .printResultField "optimal cost = " (.optimalCostF r.optimalCost),
    .printResultField "solver is: " (.solverNameF r.solverName)],
   0)

/-- mathematical_program/simple_optimization_problem_infeasible.cpp, main:
one variable x, one variable y, constraints x + y >= 1 and x + y <= 0, cost
x, solved by Solve(); prints is_success and the solution result.
Returns 0. -/
def infeasibleMain (r : SolveResult) : List Event × Int :=
  ([.newContinuousVariables [0] "x",
    .printVars [0],
    .newContinuousVariables [1] "x",
    .printVars [1],
    .addConstraintCall (.geF (.add (.var 0) (.var 1)) (.lit 1)),
    .printFormula (.geF (.add (.var 0) (.var 1)) (.lit 1)),
    .addConstraintCall (.leF (.add (.var 0) (.var 1)) (.lit 0)),
    .printFormula (.leF (.add (.var 0) (.var 1)) (.lit 0)),
    .addCostCall (.var 0),
    .printExpr (.var 0),
    .solveCall "Solve" none,
    .printResultField "Success: " (.isSuccessF r.isSuccess),
    .printResultField "Solution result: " (.solutionResultF r.solutionResult)],
   0)

/-- modeling_dynamics_systems/combinations_of_systems.cpp,
createPNGFromDotFile: opens name.dot for reading and name.png for writing
with fopen, feeds the resulting FILE pointers straight to agread and
gvRender (no NULL check anywhere, no error branch), and returns the int
gvFreeContext returns, converted to bool.  A None FILE pointer models a
failed fopen (NULL); it is passed through unchecked. -/
def createPNGFromDotFile (dotFileName : String) (env : FileEnv) :
    List Event × Bool :=
  let fpDot : Option String :=
    if env.readOpenOK then some (dotFileName ++ ".dot") else none
  let g : Option String :=
    match fpDot with
    | none => none
    | some _ => if env.agreadOK then some dotFileName else none
  let fpPng : Option String :=
    if env.writeOpenOK then some (dotFileName ++ ".png") else none
  ([.gvContextCall,
    .fopenCall (dotFileName ++ ".dot") "r" env.readOpenOK,
    .agreadCall fpDot,
    .gvLayoutCall "dot" g,
    .fopenCall (dotFileName ++ ".png") "w" env.writeOpenOK,
    .gvRenderCall "png" fpPng,
    .gvFreeLayoutCall,
    .agcloseCall,
    .gvFreeContextCall],
   env.freeContextResult)

/-- modeling_dynamics_systems/combinations_of_systems.cpp, main: builds the
pendulum + PID-controller diagram, writes its graphviz string to graph.dot,
calls createPNGFromDotFile "graph" discarding its boolean result, then
simulates for 40 seconds and plots the logged state.  main has no return
statement, so the process exit code is 0. -/
def combinationsMain (env : FileEnv) : List Event × Int :=
  let png := createPNGFromDotFile "graph" env
  ([.addSystemCall "pendulum" [],
    .addSystemCall "controller" [10, 1, 1],
    .connectCall "pendulum.state" "controller.estimated_state",
    .connectCall "controller.output" "pendulum.input",
    .exportInputCall "controller.desired_state",
    .logVectorOutputCall "pendulum.state",
    .setNameCall "logger",
    .buildDiagramCall,
    .setNameCall "diagram",
    .writeFileCall "graph.dot"]
   ++ png.1 ++
   [.createSimulatorCall,
    .setPendulumStateCall,
    .fixInputPortCall 0,
    .simInitCall,
    .advanceToCall 40,
    .findLogCall,
    .figureCall,
    .plotCall "tab:blue",
    .plotCall "tab:green",
    .xlabelCall "Sample time",
    .ylabelCall "theta (rad)",
    .showCall],
   0)

/-- modeling_dynamics_systems/symbolic_vector_system.cpp, main: builds a
SymbolicVectorSystem with state x, dynamics -x + x^3 and output x, logs its
output, simulates from x(0) = 0.9 for 10 seconds and plots the log.  main
has no return statement, so the process exit code is 0. -/
def symbolicVectorMain : List Event × Int :=
  ([.addSymbolicVectorSystemCall [0]
      (.add (.neg (.var 0)) (.powE (.var 0) 3)) (.var 0),
    .logVectorOutputCall "system.output",
    .buildDiagramCall,
    .createContextCall,
    .setContinuousStateCall [9/10],
    .createSimulatorCall,
    .simInitCall,
    .advanceToCall 10,
    .findLogCall,
    .figureCall,
    .plotCall "tab:red",
    .xlabelCall "Sample time",
    .ylabelCall "Output",
    .showCall],
   0)

/-- multibody_kinematics_and_dynamics/meshcat_sdf.cpp, model_inspector:
clears the meshcat session, builds a plant/scene-graph, hands the filename
it was given (a C string that may be NULL, modelled as Option) to the
parser's AddModelFromFile, finalizes the plant, adds the two visualizers and
the joint sliders, builds the diagram and runs the sliders. -/
def model_inspector (filename : Option String) : List Event :=
  [.meshcatDeleteCall,
   .deleteAddedControlsCall,
   .addPlantSceneGraphCall (1/1000),
   .addModelFromFileCall filename,
   .plantFinalizeCall,
   .addMeshcatVisualizerCall "kPerception" "visual",
   .addMeshcatVisualizerCall "kProximity" "collision",
   .setPropertyCall "collision" "visible" false,
   .addJointSlidersCall,
   .buildDiagramCall,
   .slidersRunCall]

/-- multibody_kinematics_and_dynamics/meshcat_sdf.cpp, main: if argc != 2 it
prints a usage message (and nothing else — control falls through), then
starts Meshcat on port 8080 and calls model_inspector with argv[1].  argv is
modelled as the list of its argc non-null entries, so argv[1] is
argv.get? 1: none models the NULL pointer read past the arguments when
argc < 2.  Returns 0. -/
def meshcatMain (argv : List String) : List Event × Int :=
  ((if argv.length ≠ 2 then [Event.printUsage (argv.get? 0)] else [])
   ++ [.makeMeshcatCall 8080]
   ++ model_inspector (argv.get? 1),
   0)

/-- The MathematicalProgram object accumulated by the AddConstraint/AddCost
calls of an example program: number of declared decision variables, the
constraint formulas, and the cost expressions. -/
structure MathematicalProgram where
  numVars : Nat
  constraints : List Formula
  costs : List Expr

/-- Replays a trace, accumulating the MathematicalProgram it builds. -/
def buildProg (tr : List Event) : MathematicalProgram :=
  tr.foldl
    (fun p e =>
      match e with
      | .newContinuousVariables ids _ => { p with numVars := p.numVars + ids.length }
      | .addConstraintCall f => { p with constraints := p.constraints ++ [f] }
      | .addCostCall c => { p with costs := p.costs ++ [c] }
      | _ => p)
    ⟨0, [], []⟩

/-- An assignment satisfies every constraint of the program. -/
def satisfiesAll (p : MathematicalProgram) (asgn : Nat → ℝ) : Prop :=
  ∀ f ∈ p.constraints, f.holdsR asgn

/-- Total cost of the program at an assignment (sum of all added costs). -/
def totalCost (p : MathematicalProgram) (asgn : Nat → ℝ) : ℝ :=
  (p.costs.map (Expr.evalR asgn)).sum

/-- Checks that a trace uses the mathematical-programming API in the
documented order.  n is the number of variables declared so far; phase is 0
while declaring variables, 1 once a constraint/cost/callback has been added,
2 once a solver has been invoked.  Variables may only be declared in phase
0; constraints, costs and callbacks may be added in phases 0-1 and may refer
only to already-declared variables; solution values and result fields may be
retrieved only in phase 2 (after a solve). -/
def apiPhaseOK : List Event → Nat → Nat → Bool
  | [], _, _ => true
  | .newContinuousVariables ids _ :: rest, n, p =>
      p == 0 && apiPhaseOK rest (n + ids.length) 0
  | .addConstraintCall f :: rest, n, p =>
      (p == 0 || p == 1) && f.varsBelow n && apiPhaseOK rest n 1
  | .addCostCall e :: rest, n, p =>
      (p == 0 || p == 1) && e.varsBelow n && apiPhaseOK rest n 1
  | .addVisualizationCallbackCall ids :: rest, n, p =>
      (p == 0 || p == 1) && ids.all (· < n) && apiPhaseOK rest n 1
  | .solveCall _ _ :: rest, n, _ =>
      apiPhaseOK rest n 2
  | .getSolutionCall ids :: rest, n, p =>
      p == 2 && ids.all (· < n) && apiPhaseOK rest n 2
  | .printResultField _ _ :: rest, n, p =>
      p == 2 && apiPhaseOK rest n p
  | _ :: rest, n, p => apiPhaseOK rest n p

/-- The nine example source files of the repository. -/
inductive SourceFile where
  | addCallback
  | basics
  | goodOrBadInitialGuess
  | manuallyChoosingASolver
  | simpleOptFeasible
  | simpleOptInfeasible
  | combinationsOfSystems
  | symbolicVectorSystemFile
  | meshcatSdf
deriving DecidableEq

/-- Whether the file's main reads the command-line arguments.  From the
source: only meshcat_sdf.cpp reads argv; five files bind (argc, argv) but
never mention them again, basics.cpp declares main with no parameters. -/
def readsCommandLineArguments : SourceFile → Bool
  | .meshcatSdf => true
  | _ => false

/-- Modelled from the spec: utils/utils.h, the repository header basics.cpp
includes, is not under src/; the spec calls it a trivial print helper, so it
is modelled as a module defining exactly the symbol print. -/
def utilsModuleSymbols : List String := ["print"]

/-- Per-file structural facts read off the source: how many definitions of
main the file contains, and which repository-internal headers it includes
(drake/*, graphviz/*, matplotlibcpp.h and the C++ standard headers are
external-library headers, not repository modules). -/
def fileModel : SourceFile → Nat × List String
  | .addCallback => (1, [])
  | .basics => (1, ["utils/utils.h"])
  | .goodOrBadInitialGuess => (1, [])
  | .manuallyChoosingASolver => (1, [])
  | .simpleOptFeasible => (1, [])
  | .simpleOptInfeasible => (1, [])
  | .combinationsOfSystems => (1, [])
  | .symbolicVectorSystemFile => (1, [])
  | .meshcatSdf => (1, [])

/-- Erases the library-outcome payloads of an event (fopen success flags,
FILE/graph pointers, solver-result fields, the argv-dependent usage text),
leaving which call was made with which repository-chosen arguments.  Two
traces with equal images under this map perform exactly the same calls
whatever the library outcomes were. -/
def eraseOutcomes : Event → Event
  | .fopenCall f m _ => .fopenCall f m true
  | .agreadCall _ => .agreadCall none
  | .gvLayoutCall e _ => .gvLayoutCall e none
  | .gvRenderCall f _ => .gvRenderCall f none
  | .printResultField l _ => .printResultField l (.isSuccessF true)
  | .printUsage _ => .printUsage none
  | e => e

/-- C1: the claim says the filename forwarded from main through
model_inspector to AddModelFromFile is a valid, non-null path for every
invocation (any argc/argv).  The code violates this: run with no arguments
(argc = 1), main prints the usage message but does not return, and still
calls model_inspector with argv[1], which is the NULL terminator of argv;
the NULL filename reaches the parser call.  This theorem evaluates the
embedded program at that failing input. -/
theorem meshcat_null_filename_forwarded :
    Event.addModelFromFileCall none ∈ (meshcatMain ["./meshcat_sdf"]).1 := by
  simp [meshcatMain, model_inspector]

/-- C2: each of the nine embedded main functions performs a finite,
concretely-bounded sequence of calls and returns exit code 0, for every
possible library result, file outcome and argument vector; no event in any
trace is a thread spawn or an indefinite block, so all blocking and
concurrency live behind the external library's calls. -/
theorem each_main_runs_to_completion :
    ∀ (r r₁ r₂ : SolveResult) (env : FileEnv) (argv : List String),
      (basicsMain.1.all Event.nonBlocking = true
        ∧ basicsMain.1.length = 8 ∧ basicsMain.2 = 0)
      ∧ (addCallbackMain.1.all Event.nonBlocking = true
        ∧ addCallbackMain.1.length = 5 ∧ addCallbackMain.2 = 0)
      ∧ ((goodOrBadMain r₁ r₂).1.all Event.nonBlocking = true
        ∧ (goodOrBadMain r₁ r₂).1.length = 11 ∧ (goodOrBadMain r₁ r₂).2 = 0)
      ∧ ((manuallyMain r).1.all Event.nonBlocking = true
        ∧ (manuallyMain r).1.length = 16 ∧ (manuallyMain r).2 = 0)
      ∧ ((feasibleMain r).1.all Event.nonBlocking = true
        ∧ (feasibleMain r).1.length = 14 ∧ (feasibleMain r).2 = 0)
      ∧ ((infeasibleMain r).1.all Event.nonBlocking = true
        ∧ (infeasibleMain r).1.length = 13 ∧ (infeasibleMain r).2 = 0)
      ∧ ((combinationsMain env).1.all Event.nonBlocking = true
        ∧ (combinationsMain env).1.length = 31 ∧ (combinationsMain env).2 = 0)
      ∧ (symbolicVectorMain.1.all Event.nonBlocking = true
        ∧ symbolicVectorMain.1.length = 14 ∧ symbolicVectorMain.2 = 0)
      ∧ ((meshcatMain argv).1.all Event.nonBlocking = true
        ∧ (meshcatMain argv).1.length ≤ 13 ∧ (meshcatMain argv).2 = 0) := by
  intro r r₁ r₂ env argv
  refine ⟨⟨rfl, rfl, rfl⟩, ⟨rfl, rfl, rfl⟩, ⟨rfl, rfl, rfl⟩, ⟨rfl, rfl, rfl⟩,
    ⟨rfl, rfl, rfl⟩, ⟨rfl, rfl, rfl⟩, ⟨rfl, rfl, rfl⟩, ⟨rfl, rfl, rfl⟩, ?_, ?_, rfl⟩
  · by_cases hc : argv.length = 2 <;>
      simp [meshcatMain, model_inspector, hc, Event.nonBlocking]
  · by_cases hc : argv.length = 2 <;>
      simp [meshcatMain, model_inspector, hc]

/-- C3: in every example that invokes a solver, the result object is
consumed only by printing its fields verbatim: the exit code is 0 whatever
the result, the trace with result-prints removed is the same for all
results (the program never branches on the result), the positions of the
result-prints are fixed, and the printed fields are exactly the raw fields
of the returned result objects, in program order. -/
theorem solver_failure_reported_only_by_printing :
    ∀ (r r' r₁ r₂ r₁' r₂' : SolveResult),
      (addCallbackMain.2 = 0 ∧ resultPrints addCallbackMain.1 = [])
      ∧ ((goodOrBadMain r₁ r₂).2 = 0
        ∧ (goodOrBadMain r₁ r₂).1.filter (fun e => !e.isResultPrint)
            = (goodOrBadMain r₁' r₂').1.filter (fun e => !e.isResultPrint)
        ∧ (goodOrBadMain r₁ r₂).1.map Event.isResultPrint
            = (goodOrBadMain r₁' r₂').1.map Event.isResultPrint
        ∧ resultPrints (goodOrBadMain r₁ r₂).1
            = [.isSuccessF r₁.isSuccess, .solutionF r₁.solution,
               .isSuccessF r₂.isSuccess, .solutionF r₂.solution])
      ∧ ((manuallyMain r).2 = 0
        ∧ (manuallyMain r).1.filter (fun e => !e.isResultPrint)
            = (manuallyMain r').1.filter (fun e => !e.isResultPrint)
        ∧ (manuallyMain r).1.map Event.isResultPrint
            = (manuallyMain r').1.map Event.isResultPrint
        ∧ resultPrints (manuallyMain r).1
            = [.solutionResultF r.solutionResult, .solutionF r.solution,
               .solverNameF r.solverName,
               .ipoptStatusF r.ipoptStatus r.ipoptStatusMeaning])
      ∧ ((feasibleMain r).2 = 0
        ∧ (feasibleMain r).1.filter (fun e => !e.isResultPrint)
            = (feasibleMain r').1.filter (fun e => !e.isResultPrint)
        ∧ (feasibleMain r).1.map Event.isResultPrint
            = (feasibleMain r').1.map Event.isResultPrint
        ∧ resultPrints (feasibleMain r).1
            = [.isSuccessF r.isSuccess, .solutionF r.solution,
               .optimalCostF r.optimalCost, .solverNameF r.solverName])
      ∧ ((infeasibleMain r).2 = 0
        ∧ (infeasibleMain r).1.filter (fun e => !e.isResultPrint)
            = (infeasibleMain r').1.filter (fun e => !e.isResultPrint)
        ∧ (infeasibleMain r).1.map Event.isResultPrint
            = (infeasibleMain r').1.map Event.isResultPrint
        ∧ resultPrints (infeasibleMain r).1
            = [.isSuccessF r.isSuccess, .solutionResultF r.solutionResult]) := by
  intro r r' r₁ r₂ r₁' r₂'
  exact ⟨⟨rfl, rfl⟩, ⟨rfl, rfl, rfl, rfl⟩, ⟨rfl, rfl, rfl, rfl⟩,
    ⟨rfl, rfl, rfl, rfl⟩, ⟨rfl, rfl, rfl, rfl⟩⟩

/-- C6: every mathematical-program example uses the API in the documented
order — variables are declared first, constraints/costs/callbacks are added
next and refer only to already-declared variables, a solver is invoked after
that, and solution values or result fields are retrieved only once a solver
has been invoked — for every possible solver result. -/
theorem mathematical_program_api_used_in_order :
    ∀ (r r₁ r₂ : SolveResult),
      apiPhaseOK basicsMain.1 0 0 = true
      ∧ apiPhaseOK addCallbackMain.1 0 0 = true
      ∧ apiPhaseOK (goodOrBadMain r₁ r₂).1 0 0 = true
      ∧ apiPhaseOK (manuallyMain r).1 0 0 = true
      ∧ apiPhaseOK (feasibleMain r).1 0 0 = true
      ∧ apiPhaseOK (infeasibleMain r).1 0 0 = true := by
  intro r r₁ r₂
  exact ⟨rfl, rfl, rfl, rfl, rfl, rfl⟩

/-- C4: exactly one of the nine files (meshcat_sdf.cpp) reads the
command-line arguments; in it, every filename that reaches the parser's
AddModelFromFile is exactly argv[1], character for character, and whenever
argv[1] exists it does reach AddModelFromFile unchanged — no transformation
or validation of the argument happens in repository code. -/
theorem cli_argument_forwarded_verbatim :
    (∀ f : SourceFile, readsCommandLineArguments f = (f == SourceFile.meshcatSdf))
    ∧ (∀ (argv : List String) (fn : Option String),
        Event.addModelFromFileCall fn ∈ (meshcatMain argv).1 → fn = argv.get? 1)
    ∧ (∀ (argv : List String) (s : String), argv.get? 1 = some s →
        Event.addModelFromFileCall (some s) ∈ (meshcatMain argv).1) := by
  refine ⟨fun f => by cases f <;> rfl, ?_, ?_⟩
  · intro argv fn h
    by_cases hc : argv.length = 2 <;>
      simpa [meshcatMain, model_inspector, hc] using h
  · intro argv s h
    rw [← h]
    by_cases hc : argv.length = 2 <;>
      simp [meshcatMain, model_inspector, hc]

/-- Witness for C4: running meshcat_sdf with the argument model.sdf forwards
exactly the string model.sdf to AddModelFromFile. -/
theorem cli_argument_forwarded_verbatim_witness :
    Event.addModelFromFileCall (some "model.sdf")
      ∈ (meshcatMain ["./meshcat_sdf", "model.sdf"]).1 :=
  cli_argument_forwarded_verbatim.2.2 ["./meshcat_sdf", "model.sdf"] "model.sdf" rfl

/-- C5, counterexample: the claim says no in-repo code inspects the argument
count.  But meshcat_sdf.cpp inspects argc: invoked with one argument its
trace contains the usage print, invoked with two it does not — a concrete
argument-count-dependent decision taken by repository code. -/
theorem meshcat_main_inspects_argument_count :
    ((meshcatMain ["./meshcat_sdf"]).1.any Event.isUsage = true)
    ∧ ((meshcatMain ["./meshcat_sdf", "model.sdf"]).1.any Event.isUsage = false) := by
  exact ⟨rfl, rfl⟩

/-- C5 as amended: the only failure-dependent code in the repository is the
argc inspection in meshcat_sdf.cpp, and it only adds a usage print: with the
usage print filtered out, meshcat_sdf's behaviour is the same function of
argv[1] for every argument count, and it exits 0.  No file checks the
outcome of a file-open or any other fallible operation:
combinations_of_systems.cpp makes exactly the same calls and returns the
same exit code whatever the outcomes of its fopen/agread/gvFreeContext
calls. -/
theorem failure_handling_left_to_library :
    ∀ (argv : List String) (env env' : FileEnv),
      ((meshcatMain argv).1.filter (fun e => !e.isUsage)
        = Event.makeMeshcatCall 8080 :: model_inspector (argv.get? 1))
      ∧ (meshcatMain argv).2 = 0
      ∧ (combinationsMain env).1.map eraseOutcomes
          = (combinationsMain env').1.map eraseOutcomes
      ∧ (combinationsMain env).2 = (combinationsMain env').2 := by
  intro argv env env'
  refine ⟨?_, rfl, rfl, rfl⟩
  by_cases hc : argv.length = 2 <;>
    simp [meshcatMain, model_inspector, hc, Event.isUsage]

/-- C7: every one of the nine files defines exactly one main, and the only
repository-internal module any file includes is utils/utils.h, the trivial
print helper (modelled from the spec as defining exactly print); all other
code each file uses comes from external libraries or the file itself. -/
theorem files_self_contained_single_main :
    ∀ f : SourceFile,
      (fileModel f).1 = 1
      ∧ ((fileModel f).2.all (fun m => m == "utils/utils.h") = true)
      ∧ utilsModuleSymbols = ["print"] := by
  intro f
  cases f <;> exact ⟨rfl, rfl, rfl⟩

/-- C8: the optimization problem built by
simple_optimization_problem_infeasible.cpp is unsatisfiable — whatever the
solver returns, no real assignment of (x, y) satisfies both added
constraints x + y >= 1 and x + y <= 0, so the program admits no feasible
point. -/
theorem infeasible_program_has_no_feasible_point :
    ∀ (r : SolveResult) (a : ℕ → ℝ),
      ¬ satisfiesAll (buildProg (infeasibleMain r).1) a := by
  intro r a h
  have h1 := h (.geF (.add (.var 0) (.var 1)) (.lit 1))
    (by simp [infeasibleMain, buildProg])
  have h2 := h (.leF (.add (.var 0) (.var 1)) (.lit 0))
    (by simp [infeasibleMain, buildProg])
  simp [Formula.holdsR, Expr.evalR] at h1 h2
  linarith

/-- Witness for C8: the zero assignment is not feasible for the program the
infeasible example builds. -/
theorem infeasible_program_has_no_feasible_point_witness :
    ¬ satisfiesAll (buildProg (infeasibleMain defaultResult).1) (fun _ => 0) :=
  infeasible_program_has_no_feasible_point defaultResult (fun _ => 0)

/-- C9: the optimization problem built by
simple_optimization_problem_feasible.cpp — minimize x0^2 + x1^2 subject to
x0 + x1 = 1 and x0 <= x1 — has the unique optimum (1/2, 1/2) with optimal
cost 1/2: the point (1/2, 1/2) is feasible with cost 1/2, and every
feasible assignment has cost at least 1/2, with equality exactly at
x0 = x1 = 1/2. -/
theorem feasible_program_unique_optimum :
    ∀ (r : SolveResult) (a : ℕ → ℝ),
      satisfiesAll (buildProg (feasibleMain r).1) (fun _ => (1/2 : ℝ))
      ∧ totalCost (buildProg (feasibleMain r).1) (fun _ => (1/2 : ℝ)) = 1/2
      ∧ (satisfiesAll (buildProg (feasibleMain r).1) a →
          1/2 ≤ totalCost (buildProg (feasibleMain r).1) a
          ∧ (totalCost (buildProg (feasibleMain r).1) a = 1/2
              ↔ a 0 = 1/2 ∧ a 1 = 1/2)) := by
  intro r a
  refine ⟨?_, ?_, ?_⟩
  · intro f hf
    simp [feasibleMain, buildProg] at hf
    rcases hf with rfl | rfl <;> simp [Formula.holdsR, Expr.evalR]
    all_goals norm_num
  · simp [feasibleMain, buildProg, totalCost, Expr.evalR]
    norm_num
  · intro h
    have h1 := h (.eqF (.add (.var 0) (.var 1)) (.lit 1))
      (by simp [feasibleMain, buildProg])
    have h2 := h (.leF (.var 0) (.var 1))
      (by simp [feasibleMain, buildProg])
    simp [Formula.holdsR, Expr.evalR] at h1 h2
    have hc : totalCost (buildProg (feasibleMain r).1) a = a 0 ^ 2 + a 1 ^ 2 := by
      simp [feasibleMain, buildProg, totalCost, Expr.evalR]
    rw [hc]
    constructor
    · nlinarith [sq_nonneg (a 0 - a 1)]
    · constructor
      · intro hsum
        have hzero : (a 0 - a 1) ^ 2 = 0 := by nlinarith
        have heq : a 0 = a 1 := by
          have := sq_eq_zero_iff.mp hzero
          linarith
        constructor <;> linarith
      · rintro ⟨ha0, ha1⟩
        rw [ha0, ha1]
        norm_num

/-- Witness for C9: at the point where every coordinate is 1/2 — feasible
by the theorem itself — the cost of the program the feasible example builds
is exactly its optimal value 1/2. -/
theorem feasible_program_unique_optimum_witness :
    1/2 ≤ totalCost (buildProg (feasibleMain defaultResult).1) (fun _ => (1/2 : ℝ))
    ∧ totalCost (buildProg (feasibleMain defaultResult).1) (fun _ => (1/2 : ℝ)) = 1/2 := by
  have h := feasible_program_unique_optimum defaultResult (fun _ => (1/2 : ℝ))
  exact ⟨(h.2.2 h.1).1, h.2.1⟩

/-- C10: createPNGFromDotFile consumes the FILE pointers fopen returns with
no NULL check and no error branch: whenever the .dot open fails, agread is
called with a NULL pointer; whenever the .png open fails, gvRender is
called with a NULL pointer; the same calls are made in the same order
whatever the outcomes; the returned boolean is exactly gvFreeContext's
result, and the sole caller (combinations_of_systems.cpp main) ignores it —
flipping it changes nothing in main's behaviour. -/
theorem createPNG_unchecked_fopen_and_ignored_result :
    ∀ env : FileEnv,
      (env.readOpenOK = false →
        Event.agreadCall none ∈ (createPNGFromDotFile "graph" env).1)
      ∧ (env.writeOpenOK = false →
        Event.gvRenderCall "png" none ∈ (createPNGFromDotFile "graph" env).1)
      ∧ ((createPNGFromDotFile "graph" env).1.map eraseOutcomes
          = (createPNGFromDotFile "graph" ⟨true, true, true, true⟩).1.map eraseOutcomes)
      ∧ (createPNGFromDotFile "graph" env).2 = env.freeContextResult
      ∧ combinationsMain env
          = combinationsMain { env with freeContextResult := !env.freeContextResult } := by
  intro env
  refine ⟨?_, ?_, rfl, rfl, rfl⟩
  · intro h
    simp [createPNGFromDotFile, h]
  · intro h
    simp [createPNGFromDotFile, h]

/-- Witness for C10: with both fopen calls failing, agread and gvRender
each receive a NULL pointer. -/
theorem createPNG_unchecked_fopen_and_ignored_result_witness :
    Event.agreadCall none
      ∈ (createPNGFromDotFile "graph" ⟨false, true, false, true⟩).1
    ∧ Event.gvRenderCall "png" none
      ∈ (createPNGFromDotFile "graph" ⟨false, true, false, true⟩).1 := by
  have h := createPNG_unchecked_fopen_and_ignored_result ⟨false, true, false, true⟩
  exact ⟨h.1 rfl, h.2.1 rfl⟩
